import Mathlib

/-!
Shallow embedding of the authenticated request layer of `src/api.ts`
(session storage helpers, `isProbablyJwt`, `readErrorMessage`, the
single-flight refresh coordinator `refreshAccessToken` / `refreshOnce`,
the credential attacher `withHeaders`, the executor `apiFetch`, and the
typed decoder `apiFetchJson`).

Modelling conventions:
* `localStorage` is the `Store` record of the three fixed keys.
* JavaScript runtime values reachable by the code are modelled by `JVal`;
  `undefined` is identified with `null` (`JVal.jnull`) because the source
  only ever distinguishes them through truthiness and `??`, which treat
  both alike.
* A `fetch` call is resolved by an environment (`NetResult`): either a
  `Response` or a rejected promise (`netError`).  `res.json()` rejecting
  (malformed body) is `jsonBody = none`; `res.text()` rejecting is
  `textBody = none`.
* JS string primitives used by the source (`split`, `includes`, `trim`)
  are re-implemented structurally over `List Char` so that all
  definitions evaluate inside the kernel.
-/

/-- JavaScript values as far as the request layer observes them.
`jnull` stands for both `null` and `undefined`. -/
inductive JVal where
  | jnull
  | jbool (b : Bool)
  | jnum (n : Int)
  | jstr (s : String)
  | jarr (elems : List JVal)
  | jobj (fields : List (String × JVal))

/-- JS truthiness of a value ( `if (v)` ). -/
def jTruthy : JVal → Bool
  | .jnull => false
  | .jbool b => b
  | .jnum n => if n = 0 then false else true
  | .jstr s => if s = "" then false else true
  | .jarr _ => true
  | .jobj _ => true

/-- First-match field lookup in an object literal. -/
def jFieldLookup : List (String × JVal) → String → JVal
  | [], _ => .jnull
  | (k, v) :: rest, key => if k = key then v else jFieldLookup rest key

/-- Property access `data?.key`: `undefined` (here `jnull`) on a missing
field or on a non-object receiver. -/
def jGet (j : JVal) (key : String) : JVal :=
  match j with
  | .jobj fields => jFieldLookup fields key
  | _ => .jnull

/-- JS `a || b`. -/
def jsOr (a b : JVal) : JVal := if jTruthy a then a else b

/-- JS `a ?? b` (nullish coalescing). -/
def jsNullish (a b : JVal) : JVal :=
  match a with
  | .jnull => b
  | v => v

/-- JS `typeof data === "string" ? data : null`. -/
def jsStringSelf : JVal → JVal
  | .jstr s => .jstr s
  | _ => .jnull

/-- String coercion applied by `localStorage.setItem` to a non-string
value.  Only the `jstr` case is ever reached by the claims; the other
cases approximate `String(v)`. -/
def jToStoredString : JVal → String
  | .jnull => "null"
  | .jbool b => if b then "true" else "false"
  | .jnum n => toString n
  | .jstr s => s
  | .jarr _ => ""
  | .jobj _ => "[object Object]"

/-- Does `hay` start with `pat`? (helper for JS `String.includes`). -/
def charsStartsWith : List Char → List Char → Bool
  | _, [] => true
  | [], _ :: _ => false
  | h :: hs, p :: ps => h = p && charsStartsWith hs ps

/-- Does the list contain `pat` as a contiguous run? -/
def charsContains (pat : List Char) : List Char → Bool
  | [] => charsStartsWith [] pat
  | c :: t => charsStartsWith (c :: t) pat || charsContains pat t

/-- JS `s.includes(pat)`. -/
def strIncludes (s pat : String) : Bool := charsContains pat.toList s.toList

/-- JS `s.split(sep)` for a single-character separator: splits at every
occurrence and keeps empty segments. -/
def splitChars (sep : Char) : List Char → List (List Char)
  | [] => [[]]
  | c :: cs =>
      let rest := splitChars sep cs
      if c = sep then [] :: rest
      else
        match rest with
        | [] => [[c]]
        | r :: rs => (c :: r) :: rs

/-- Whitespace stripped by JS `String.prototype.trim` (the characters
that matter for HTTP bodies). -/
def isJsWhitespace (c : Char) : Bool :=
  c = ' ' || c = '\t' || c = '\n' || c = '\r' || c = '\x0b' || c = '\x0c'

/-- JS `s.trim()`. -/
def jsTrim (s : String) : String :=
  String.mk (((s.toList.dropWhile isJsWhitespace).reverse.dropWhile isJsWhitespace).reverse)

/-- The durable session store: the three `localStorage` entries
`accessToken`, `refreshToken`, `nurseUser` (the serialized user).
`none` = key absent. -/
structure Store where
  accessToken : Option String
  refreshToken : Option String
  user : Option String
  deriving Repr, DecidableEq

/-- `getAccessToken` (api.ts line 9). -/
def getAccessToken (st : Store) : Option String := st.accessToken

/-- `getRefreshToken` (line 13). -/
def getRefreshToken (st : Store) : Option String := st.refreshToken

/-- `setAccessToken` (line 17). -/
def setAccessToken (st : Store) (token : String) : Store :=
  { st with accessToken := some token }

/-- `setRefreshToken` (line 21). -/
def setRefreshToken (st : Store) (token : String) : Store :=
  { st with refreshToken := some token }

/-- `localStorage.removeItem(ACCESS_TOKEN_KEY)` as performed inside
`withHeaders` (line 154). -/
def removeAccessToken (st : Store) : Store := { st with accessToken := none }

/-- `clearSession` (line 43): removes all three keys. -/
def clearSession (_st : Store) : Store := ⟨none, none, none⟩

/-- Truthiness of `localStorage.getItem(...)`: `null` and `""` are falsy. -/
def strTruthy : Option String → Bool
  | none => false
  | some s => if s = "" then false else true

/-- `isProbablyJwt` (lines 50-54): three non-empty dot-separated
segments.  The argument is `string | null` exactly as in the source. -/
def isProbablyJwt (token : Option String) : Bool :=
  if strTruthy token = false then false
  else
    let parts := splitChars '.' ((token.getD "").toList)
    parts.length = 3 && parts.all (fun p => p.length > 0)

/-- JS `Headers`: names are case-insensitive; we store them lowercased. -/
structure Headers where
  entries : List (String × String)
  deriving Repr, DecidableEq

/-- Lowercase a header name as `Headers` does. -/
def lowerStr (s : String) : String := String.mk (s.toList.map Char.toLower)

/-- Lookup among lowercased header names. -/
def hdrLookup : List (String × String) → String → Option String
  | [], _ => none
  | (k, v) :: rest, key => if k = key then some v else hdrLookup rest key

/-- Replace-or-append among lowercased header names. -/
def hdrSet : List (String × String) → String → String → List (String × String)
  | [], key, value => [(key, value)]
  | (k, v) :: rest, key, value =>
      if k = key then (key, value) :: rest else (k, v) :: hdrSet rest key value

/-- `headers.get(name)`. -/
def Headers.get (h : Headers) (name : String) : Option String :=
  hdrLookup h.entries (lowerStr name)

/-- `headers.has(name)`. -/
def Headers.has (h : Headers) (name : String) : Bool :=
  (Headers.get h name).isSome

/-- `headers.set(name, value)`. -/
def Headers.set (h : Headers) (name value : String) : Headers :=
  ⟨hdrSet h.entries (lowerStr name) value⟩

/-- The `body` of a `RequestInit` as far as `withHeaders` inspects it:
a string, or some other non-nullish value. -/
inductive BodyInit where
  | str (s : String)
  | other
  deriving Repr, DecidableEq

/-- A request descriptor (`RequestInit`): `body = none` covers both
`undefined` and `null`, which lines 147-148 treat alike. -/
structure ReqInit where
  headers : Headers := ⟨[]⟩
  body : Option BodyInit := none
  deriving Repr, DecidableEq

/-- `withHeaders` (lines 143-160): default the content type for string
bodies, purge a structurally invalid stored access token, attach a valid
one as a bearer credential.  Returns the possibly-purged store together
with the new descriptor. -/
def withHeaders (store : Store) (init : ReqInit) : Store × ReqInit :=
  let token := getAccessToken store
  let headers := init.headers
  let hasBody := init.body.isSome
  let bodyIsString := match init.body with | some (.str _) => true | _ => false
  let headers :=
    if hasBody && bodyIsString && !(Headers.has headers "Content-Type") then
      Headers.set headers "Content-Type" "application/json"
    else headers
  if strTruthy token && !(isProbablyJwt token) then
    (removeAccessToken store, { init with headers := headers })
  else
    let headers :=
      if isProbablyJwt token then
        Headers.set headers "Authorization" ("Bearer " ++ token.getD "")
      else headers
    (store, { init with headers := headers })

/-- An HTTP response as consumed by the layer.  `jsonBody = none` means
`res.json()` rejects (malformed/empty body); `textBody = none` means
`res.text()` rejects. -/
structure Response where
  status : Nat
  contentType : Option String
  jsonBody : Option JVal
  textBody : Option String

/-- `res.ok`: status in the inclusive range 200-299. -/
def Response.ok (r : Response) : Bool := 200 ≤ r.status && r.status < 300

/-- Outcome of one `fetch` call, chosen by the environment: a response,
or a rejected promise (network failure). -/
inductive NetResult where
  | resp (r : Response)
  | netError

/-- The fallback message `` `Request failed (${res.status})` ``. -/
def requestFailedMsg (status : Nat) : String :=
  "Request failed (" ++ toString status ++ ")"

/-- The text-body fallback of `readErrorMessage` (lines 72-79): trimmed
non-empty text, else the generic fallback. -/
def readErrorText (res : Response) : JVal :=
  match res.textBody with
  | some t => if jsTrim t = "" then .jstr (requestFailedMsg res.status) else .jstr (jsTrim t)
  | none => .jstr (requestFailedMsg res.status)

/-- `readErrorMessage` (lines 56-80).  With a JSON content type and a
parseable body it returns
`data?.message || data?.error || (typeof data === "string" ? data : null) || fallback`;
otherwise it falls through to the text body. -/
def readErrorMessage (res : Response) : JVal :=
  let ct := res.contentType.getD ""
  if strIncludes ct "application/json" then
    match res.jsonBody with
    | some data =>
        jsOr (jGet data "message")
          (jsOr (jGet data "error")
            (jsOr (jsStringSelf data) (.jstr (requestFailedMsg res.status))))
    | none => readErrorText res
  else readErrorText res

/-- Settled outcome of a promise: a value, or a rejection. -/
inductive Outcome where
  | value (v : JVal)
  | thrown

/-- Result of `refreshAccessToken`: the store afterwards, how many
refresh network calls were made (0 or 1), and the settled outcome. -/
structure RefreshResult where
  store : Store
  networkCalls : Nat
  outcome : Outcome

/-- `refreshAccessToken` (lines 101-129).  The single suspension points
are the `fetch` and `res.json()` awaits, both resolved by `net`. -/
def refreshAccessToken (net : NetResult) (store : Store) : RefreshResult :=
  let refreshToken := getRefreshToken store
  if strTruthy refreshToken = false then ⟨store, 0, .value .jnull⟩
  else
    match net with
    | .netError => ⟨store, 1, .thrown⟩
    | .resp res =>
      if !(Response.ok res) then
        if res.status = 401 then ⟨clearSession store, 1, .value .jnull⟩
        else ⟨store, 1, .value .jnull⟩
      else
        match res.jsonBody with
        | none => ⟨store, 1, .thrown⟩
        | some data =>
          let newAccess :=
            jsNullish (jGet data "accessToken") (jsNullish (jGet data "token") .jnull)
          if !(jTruthy newAccess) then ⟨store, 1, .value .jnull⟩
          else
            let store1 := setAccessToken store (jToStoredString newAccess)
            let store2 :=
              if jTruthy (jGet data "refreshToken") then
                setRefreshToken store1 (jToStoredString (jGet data "refreshToken"))
              else store1
            ⟨store2, 1, .value newAccess⟩

/-- Result of `refreshOnce` as observed by one caller: thanks to
`.catch(() => null)` the promise always resolves, so the outcome is a
plain value. -/
structure RefreshOnceResult where
  store : Store
  networkCalls : Nat
  token : JVal

/-- `refreshOnce` (lines 131-140), functional view for a single logical
caller when no other refresh is pending: run `refreshAccessToken` and
fold a rejection into `null`.  The shared in-flight handle itself is
modelled separately by `FlightState`/`refreshOnceStep` below. -/
def refreshOnce (net : NetResult) (store : Store) : RefreshOnceResult :=
  match refreshAccessToken net store with
  | ⟨st, n, .thrown⟩ => ⟨st, n, .jnull⟩
  | ⟨st, n, .value v⟩ => ⟨st, n, v⟩

/-- Temporal model of the module-level handle `refreshInFlight`
(line 99): `inFlight` holds the identifier of the pending refresh
promise (`none` = `null`), `nextId` generates fresh promise identifiers,
and `networkCalls` counts calls of `refreshAccessToken` started. -/
structure FlightState where
  inFlight : Option Nat
  nextId : Nat
  networkCalls : Nat
  deriving Repr, DecidableEq

/-- One invocation of `refreshOnce` (lines 131-140) at the event-loop
level.  The body runs synchronously up to returning the promise (there
is no `await` between the null test and the assignment), so check-and-set
is atomic: a pending handle is returned as-is, otherwise a fresh refresh
is started and installed. -/
def refreshOnceStep (s : FlightState) : FlightState × Nat :=
  match s.inFlight with
  | some h => (s, h)
  | none => (⟨some s.nextId, s.nextId + 1, s.networkCalls + 1⟩, s.nextId)

/-- The `.finally(() => { refreshInFlight = null; })` of line 135-137:
settlement of the pending refresh releases the handle. -/
def settleFlight (s : FlightState) : FlightState := { s with inFlight := none }

/-- `n` logical callers invoking `refreshOnce` in turn, none of them
settling in between (they all observed the 401 before the refresh
settles); returns the final state and the promise handle each received. -/
def invokeRefreshers : Nat → FlightState → FlightState × List Nat
  | 0, s => (s, [])
  | n + 1, s =>
      let p := refreshOnceStep s
      let q := invokeRefreshers n p.1
      (q.1, p.2 :: q.2)

/-- The environment of one `apiFetch` call: what each of its (at most
three) network operations resolves to, in program order. -/
structure ApiEnv where
  net1 : NetResult
  refreshNet : NetResult
  net2 : NetResult

/-- What `apiFetch` hands back: a response, or a rejected promise
(an uncaught `fetch` rejection propagates to the caller). -/
inductive FetchOutcome where
  | resp (r : Response)
  | thrown

/-- Trace of one `apiFetch` call: final store, outcome, the resource
requests actually sent (initial and, when reached, the retry), and the
number of refresh network calls made on behalf of this caller. -/
structure ApiResult where
  store : Store
  outcome : FetchOutcome
  sent : List ReqInit
  refreshNetworkCalls : Nat

/-- `apiFetch` (lines 163-181): attach, send, on 401 refresh once and
either give up (clear session, return the original response) or retry
exactly once, clearing the session if the retry is again a 401. -/
def apiFetch (env : ApiEnv) (store : Store) (init : ReqInit) : ApiResult :=
  let p1 := withHeaders store init
  match env.net1 with
  | .netError => ⟨p1.1, .thrown, [p1.2], 0⟩
  | .resp res1 =>
    if res1.status = 401 then
      let r := refreshOnce env.refreshNet p1.1
      if !(jTruthy r.token) then
        ⟨clearSession r.store, .resp res1, [p1.2], r.networkCalls⟩
      else
        let p2 := withHeaders r.store init
        match env.net2 with
        | .netError => ⟨p2.1, .thrown, [p1.2, p2.2], r.networkCalls⟩
        | .resp res2 =>
          let store4 := if res2.status = 401 then clearSession p2.1 else p2.1
          ⟨store4, .resp res2, [p1.2, p2.2], r.networkCalls⟩
    else ⟨p1.1, .resp res1, [p1.2], 0⟩

/-- Outcome of `apiFetchJson`: a resolved value, an `Error` with the
`status` field attached (line 197-198), a plain `Error` carrying only a
message, a JSON parse rejection, or a propagated fetch rejection. -/
inductive JsonOutcome where
  | ok (v : JVal)
  | errStatus (status : Nat) (message : JVal)
  | errMsg (msg : String)
  | errParse
  | thrown

/-- Does the outcome carry an HTTP status field on the error object? -/
def JsonOutcome.carriesStatus : JsonOutcome → Bool
  | .errStatus _ _ => true
  | _ => false

/-- Is the outcome a failure (anything the caller sees as a rejection)? -/
def JsonOutcome.isFailure : JsonOutcome → Bool
  | .ok _ => false
  | _ => true

/-- The decoding stage of `apiFetchJson` (lines 195-213), applied to the
response produced by `apiFetch`. -/
def apiFetchJsonDecode (res : Response) (allowNoJson : Bool) : JsonOutcome :=
  if !(Response.ok res) then .errStatus res.status (readErrorMessage res)
  else if res.status = 204 then
    if allowNoJson then .ok .jnull else .errMsg "No content returned (204)."
  else
    let ct := res.contentType.getD ""
    if !(strIncludes ct "application/json") then
      if allowNoJson then .ok .jnull
      else .errMsg "Expected JSON but got non-JSON. Check API URL/proxy."
    else
      match res.jsonBody with
      | none => .errParse
      | some v => .ok v

/-- Trace of one `apiFetchJson` call. -/
structure ApiJsonResult where
  store : Store
  outcome : JsonOutcome
  sent : List ReqInit
  refreshNetworkCalls : Nat

/-- `apiFetchJson` (lines 188-214): `apiFetch` followed by the decode
stage. -/
def apiFetchJson (env : ApiEnv) (store : Store) (init : ReqInit)
    (allowNoJson : Bool) : ApiJsonResult :=
  let r := apiFetch env store init
  match r.outcome with
  | .thrown => ⟨r.store, .thrown, r.sent, r.refreshNetworkCalls⟩
  | .resp res => ⟨r.store, apiFetchJsonDecode res allowNoJson, r.sent, r.refreshNetworkCalls⟩

/-! ## Helper lemmas -/

/-- Setting a header leaves lookups of a different (lowercased) name
unchanged. -/
theorem hdrLookup_hdrSet_other (l : List (String × String)) (k1 k2 v : String)
    (h : k1 ≠ k2) : hdrLookup (hdrSet l k1 v) k2 = hdrLookup l k2 := by
  induction l with
  | nil => simp [hdrSet, hdrLookup, h]
  | cons p rest ih =>
      by_cases hk : p.1 = k1
      · simp [hdrSet, hdrLookup, hk, h]
      · simp [hdrSet, hdrLookup, hk, ih]

/-- Setting a header makes lookups of the same (lowercased) name return
the new value. -/
theorem hdrLookup_hdrSet_same (l : List (String × String)) (k v : String) :
    hdrLookup (hdrSet l k v) k = some v := by
  induction l with
  | nil => simp [hdrSet, hdrLookup]
  | cons p rest ih =>
      by_cases hk : p.1 = k
      · simp [hdrSet, hdrLookup, hk]
      · simp [hdrSet, hdrLookup, hk, ih]

/-- Lowercasing the two header names used by `withHeaders`. -/
theorem lowerStr_authorization : lowerStr "Authorization" = "authorization" := by rfl

/-- Lowercasing of the content-type header name. -/
theorem lowerStr_content_type : lowerStr "Content-Type" = "content-type" := by rfl

/-- The `Authorization` entry of the descriptor built by `withHeaders`:
a structurally valid stored token is attached as a bearer credential,
otherwise the caller-supplied entry (if any) is passed through. -/
theorem withHeaders_auth_header (store : Store) (init : ReqInit) :
    Headers.get (withHeaders store init).2.headers "Authorization" =
      (if isProbablyJwt (getAccessToken store) then
        some ("Bearer " ++ (getAccessToken store).getD "")
      else Headers.get init.headers "Authorization") := by
  cases htr : strTruthy (getAccessToken store) <;>
    cases hjwt : isProbablyJwt (getAccessToken store) <;>
      simp only [withHeaders, htr, hjwt, Bool.not_true, Bool.not_false, Bool.and_true,
        Bool.and_false, Bool.true_and, Bool.false_and, if_true, if_false,
        Bool.false_eq_true, Headers.get, Headers.set, lowerStr_authorization,
        lowerStr_content_type, reduceIte] <;>
      split <;>
      simp [hdrLookup_hdrSet_same, hdrLookup_hdrSet_other, Headers.get,
        lowerStr_authorization]

/-- The store side effect of `withHeaders`: the access token is purged
exactly when it is present, truthy and structurally invalid. -/
theorem withHeaders_store_effect (store : Store) (init : ReqInit) :
    (withHeaders store init).1 =
      (if strTruthy (getAccessToken store) && !(isProbablyJwt (getAccessToken store))
       then removeAccessToken store else store) := by
  cases htr : strTruthy (getAccessToken store) <;>
    cases hjwt : isProbablyJwt (getAccessToken store) <;>
      simp [withHeaders, htr, hjwt]

/-! ## C3 — credential validity at attach time -/

/-- C3 counterexample: a stored empty-string access credential is not
three non-empty dot-separated segments, yet `withHeaders` leaves it in
the store — the JS truthiness test `token && !isProbablyJwt(token)`
skips the purge for `""`.  (No header is attached either.) -/
theorem withHeaders_empty_token_not_purged :
    isProbablyJwt (some "") = false ∧
    (withHeaders ⟨some "", some "r", none⟩ ⟨⟨[]⟩, none⟩).1.accessToken = some "" ∧
    Headers.get (withHeaders ⟨some "", some "r", none⟩ ⟨⟨[]⟩, none⟩).2.headers
      "Authorization" = none :=
  ⟨rfl, rfl, rfl⟩

/-- C3 (amended): a stored *non-empty* access credential that is not
three non-empty dot-separated segments is purged and the attacher adds
no `Authorization` entry (the caller's own entry, if any, passes
through); a structurally valid credential is attached as
`Bearer <token>`; a stored empty-string credential is neither attached
nor purged. -/
theorem withHeaders_credential_validity (store : Store) (init : ReqInit) (s : String)
    (hacc : getAccessToken store = some s) :
    (s ≠ "" → isProbablyJwt (some s) = false →
      (withHeaders store init).1.accessToken = none ∧
      Headers.get (withHeaders store init).2.headers "Authorization" =
        Headers.get init.headers "Authorization") ∧
    (isProbablyJwt (some s) = true →
      Headers.get (withHeaders store init).2.headers "Authorization" =
        some ("Bearer " ++ s) ∧
      (withHeaders store init).1 = store) ∧
    (s = "" →
      (withHeaders store init).1 = store ∧
      Headers.get (withHeaders store init).2.headers "Authorization" =
        Headers.get init.headers "Authorization") := by
  refine ⟨?_, ?_, ?_⟩
  · intro hne hjwt
    have htr : strTruthy (some s) = true := by
      simp [strTruthy, hne]
    constructor
    · rw [withHeaders_store_effect]
      simp [htr, hacc, hjwt, removeAccessToken]
    · rw [withHeaders_auth_header]
      simp [hacc, hjwt]
  · intro hjwt
    constructor
    · rw [withHeaders_auth_header]
      simp [hacc, hjwt]
    · rw [withHeaders_store_effect]
      simp [hacc, hjwt]
  · intro he
    subst he
    have htr : strTruthy (getAccessToken store) = false := by simp [hacc, strTruthy]
    have hjwt : isProbablyJwt (getAccessToken store) = false := by
      simp [hacc, isProbablyJwt, strTruthy]
    constructor
    · rw [withHeaders_store_effect]; simp [htr]
    · rw [withHeaders_auth_header]; simp [hjwt]

/-- C3 witness: the invalid token `"bad"` is purged and nothing is
attached. -/
theorem withHeaders_credential_validity_witness :
    (withHeaders ⟨some "bad", none, none⟩ ⟨⟨[]⟩, none⟩).1.accessToken = none ∧
    Headers.get (withHeaders ⟨some "bad", none, none⟩ ⟨⟨[]⟩, none⟩).2.headers
      "Authorization" = Headers.get (⟨[]⟩ : Headers) "Authorization" :=
  (withHeaders_credential_validity ⟨some "bad", none, none⟩ ⟨⟨[]⟩, none⟩ "bad" rfl).1
    (by decide) rfl

/-! ## C4 — totality of the refresh operation -/

/-- C4: `refreshOnce` always resolves to a value.  With no stored
refresh credential it returns `null` at once with no network call, and
a transport rejection of the exchange is folded into a `null` outcome
(as is any other rejection of `refreshAccessToken`). -/
theorem refreshOnce_total (net : NetResult) (store : Store) :
    (getRefreshToken store = none →
      refreshOnce net store = ⟨store, 0, .jnull⟩) ∧
    (strTruthy (getRefreshToken store) = true → net = .netError →
      refreshOnce net store = ⟨store, 1, .jnull⟩) ∧
    (∀ st n, refreshAccessToken net store = ⟨st, n, .thrown⟩ →
      refreshOnce net store = ⟨st, n, .jnull⟩) := by
  refine ⟨?_, ?_, ?_⟩
  · intro h
    simp [refreshOnce, refreshAccessToken, h, strTruthy]
  · intro ht hn
    subst hn
    simp [refreshOnce, refreshAccessToken, ht]
  · intro st n h
    simp [refreshOnce, h]

/-- C4 witness: no stored refresh credential, and a network failure. -/
theorem refreshOnce_total_witness :
    refreshOnce .netError ⟨none, none, none⟩ = ⟨⟨none, none, none⟩, 0, .jnull⟩ ∧
    refreshOnce .netError ⟨some "a", some "r", none⟩ =
      ⟨⟨some "a", some "r", none⟩, 1, .jnull⟩ :=
  ⟨(refreshOnce_total .netError ⟨none, none, none⟩).1 rfl,
   (refreshOnce_total .netError ⟨some "a", some "r", none⟩).2.1 rfl rfl⟩

/-! ## C5 — refresh failure handling -/

/-- C5: an unauthorized (401) refresh exchange clears all three session
fields and resolves to `null`; any other non-success outcome resolves to
`null` with the session untouched. -/
theorem refresh_failure_clears_session (net : NetResult) (store : Store) (res : Response)
    (hrt : strTruthy (getRefreshToken store) = true)
    (hnet : net = .resp res) (hok : Response.ok res = false) :
    (res.status = 401 →
      refreshAccessToken net store = ⟨⟨none, none, none⟩, 1, .value .jnull⟩) ∧
    (res.status ≠ 401 →
      refreshAccessToken net store = ⟨store, 1, .value .jnull⟩) := by
  subst hnet
  constructor
  · intro h
    simp [refreshAccessToken, hrt, hok, h, clearSession]
  · intro h
    simp [refreshAccessToken, hrt, hok, h]

/-- C5 witness: a 401 refresh response against a fully populated session
clears all three fields; a 500 leaves them. -/
theorem refresh_failure_clears_session_witness :
    refreshAccessToken (.resp ⟨401, none, none, none⟩) ⟨some "a", some "r", some "u"⟩ =
      ⟨⟨none, none, none⟩, 1, .value .jnull⟩ ∧
    refreshAccessToken (.resp ⟨500, none, none, none⟩) ⟨some "a", some "r", some "u"⟩ =
      ⟨⟨some "a", some "r", some "u"⟩, 1, .value .jnull⟩ :=
  ⟨(refresh_failure_clears_session (.resp ⟨401, none, none, none⟩)
      ⟨some "a", some "r", some "u"⟩ ⟨401, none, none, none⟩ rfl rfl rfl).1 rfl,
   (refresh_failure_clears_session (.resp ⟨500, none, none, none⟩)
      ⟨some "a", some "r", some "u"⟩ ⟨500, none, none, none⟩ rfl rfl rfl).2 (by decide)⟩

/-! ## C6 — state effect of a successful refresh exchange -/

/-- C6: on an HTTP-success refresh response the new access credential —
`data.accessToken ?? data.token`, i.e. either accepted field name — is
persisted; the stored refresh credential is replaced exactly when the
response supplies a (truthy) rotated one and is otherwise unchanged; the
cached user is never touched; and a response with no access credential
resolves to `null` leaving every session field unchanged. -/
theorem refresh_success_state (net : NetResult) (store : Store) (res : Response) (data : JVal)
    (hrt : strTruthy (getRefreshToken store) = true)
    (hnet : net = .resp res) (hok : Response.ok res = true)
    (hbody : res.jsonBody = some data) :
    (∀ s, jsNullish (jGet data "accessToken") (jsNullish (jGet data "token") .jnull) = .jstr s →
      s ≠ "" →
      (refreshAccessToken net store).store.accessToken = some s ∧
      (refreshAccessToken net store).store.refreshToken =
        (if jTruthy (jGet data "refreshToken") then
          some (jToStoredString (jGet data "refreshToken"))
        else store.refreshToken) ∧
      (refreshAccessToken net store).store.user = store.user ∧
      (refreshAccessToken net store).outcome = .value (.jstr s)) ∧
    (jTruthy (jsNullish (jGet data "accessToken") (jsNullish (jGet data "token") .jnull)) = false →
      refreshAccessToken net store = ⟨store, 1, .value .jnull⟩) := by
  subst hnet
  constructor
  · intro s hs hne
    have htr : jTruthy (JVal.jstr s) = true := by simp [jTruthy, hne]
    by_cases hrot : jTruthy (jGet data "refreshToken") = true
    · simp [refreshAccessToken, hrt, hok, hbody, hs, htr, hrot,
        setAccessToken, setRefreshToken, jToStoredString]
    · simp [refreshAccessToken, hrt, hok, hbody, hs, htr, hrot,
        setAccessToken, setRefreshToken, jToStoredString]
  · intro hfalse
    simp [refreshAccessToken, hrt, hok, hbody, hfalse]

/-- C6 witness: the credential arrives under the alternate field name
`token` together with a rotated refresh credential; and a success body
with no credential changes nothing. -/
theorem refresh_success_state_witness :
    ((refreshAccessToken
        (.resp ⟨200, some "application/json",
          some (.jobj [("token", .jstr "x.y.z"), ("refreshToken", .jstr "r2")]), none⟩)
        ⟨some "a", some "r", some "u"⟩).store.accessToken = some "x.y.z" ∧
      (refreshAccessToken
        (.resp ⟨200, some "application/json",
          some (.jobj [("token", .jstr "x.y.z"), ("refreshToken", .jstr "r2")]), none⟩)
        ⟨some "a", some "r", some "u"⟩).store.refreshToken =
        (if jTruthy (jGet (.jobj [("token", .jstr "x.y.z"), ("refreshToken", .jstr "r2")])
            "refreshToken") then
          some (jToStoredString (jGet (.jobj [("token", .jstr "x.y.z"),
            ("refreshToken", .jstr "r2")]) "refreshToken"))
        else some "r") ∧
      (refreshAccessToken
        (.resp ⟨200, some "application/json",
          some (.jobj [("token", .jstr "x.y.z"), ("refreshToken", .jstr "r2")]), none⟩)
        ⟨some "a", some "r", some "u"⟩).store.user = some "u" ∧
      (refreshAccessToken
        (.resp ⟨200, some "application/json",
          some (.jobj [("token", .jstr "x.y.z"), ("refreshToken", .jstr "r2")]), none⟩)
        ⟨some "a", some "r", some "u"⟩).outcome = .value (.jstr "x.y.z")) ∧
    refreshAccessToken (.resp ⟨200, some "application/json", some (.jobj []), none⟩)
      ⟨some "a", some "r", some "u"⟩ =
      ⟨⟨some "a", some "r", some "u"⟩, 1, .value .jnull⟩ :=
  ⟨(refresh_success_state
      (.resp ⟨200, some "application/json",
        some (.jobj [("token", .jstr "x.y.z"), ("refreshToken", .jstr "r2")]), none⟩)
      ⟨some "a", some "r", some "u"⟩
      ⟨200, some "application/json",
        some (.jobj [("token", .jstr "x.y.z"), ("refreshToken", .jstr "r2")]), none⟩
      (.jobj [("token", .jstr "x.y.z"), ("refreshToken", .jstr "r2")])
      rfl rfl rfl rfl).1 "x.y.z" rfl (by decide),
   (refresh_success_state
      (.resp ⟨200, some "application/json", some (.jobj []), none⟩)
      ⟨some "a", some "r", some "u"⟩
      ⟨200, some "application/json", some (.jobj []), none⟩
      (.jobj []) rfl rfl rfl rfl).2 rfl⟩

/-! ## C8 — decode failures -/

/-- C8 counterexample: a success response with a non-JSON content type
and `allowNoJson` unset fails with a plain `Error` that carries *no*
`status` field, refuting that every decode failure carries both the
HTTP status and a message. -/
theorem decode_content_type_error_lacks_status :
    JsonOutcome.isFailure
      (apiFetchJsonDecode ⟨200, some "text/html", none, some "x"⟩ false) = true ∧
    JsonOutcome.carriesStatus
      (apiFetchJsonDecode ⟨200, some "text/html", none, some "x"⟩ false) = false :=
  ⟨rfl, rfl⟩

/-- C8 (amended): every decode failure is raised to the immediate
caller, never yielding a value; a bad-HTTP-status failure carries both
the status and the extracted message (the JSON body's truthy `message`
field, else the fallback `Request failed (<status>)` when the text body
is empty); the no-content, wrong-content-type and malformed-body
failures carry only a message or a parse rejection, without the status
field. -/
theorem decode_failure_taxonomy (res : Response) (allow : Bool) :
    (Response.ok res = false →
      apiFetchJsonDecode res allow = .errStatus res.status (readErrorMessage res)) ∧
    (Response.ok res = true → res.status = 204 → allow = false →
      apiFetchJsonDecode res allow = .errMsg "No content returned (204).") ∧
    (Response.ok res = true → res.status ≠ 204 →
      strIncludes (res.contentType.getD "") "application/json" = false → allow = false →
      apiFetchJsonDecode res allow = .errMsg "Expected JSON but got non-JSON. Check API URL/proxy.") ∧
    (Response.ok res = true → res.status ≠ 204 →
      strIncludes (res.contentType.getD "") "application/json" = true → res.jsonBody = none →
      apiFetchJsonDecode res allow = .errParse) ∧
    (∀ m, Response.ok res = false →
      strIncludes (res.contentType.getD "") "application/json" = true →
      res.jsonBody = some (.jobj [("message", .jstr m)]) → m ≠ "" →
      apiFetchJsonDecode res allow = .errStatus res.status (.jstr m)) ∧
    (Response.ok res = false →
      strIncludes (res.contentType.getD "") "application/json" = false →
      res.textBody = some "" →
      apiFetchJsonDecode res allow = .errStatus res.status (.jstr (requestFailedMsg res.status))) := by
  refine ⟨?_, ?_, ?_, ?_, ?_, ?_⟩
  · intro hok
    simp [apiFetchJsonDecode, hok]
  · intro hok h204 hallow
    simp [apiFetchJsonDecode, hok, h204, hallow]
  · intro hok h204 hct hallow
    simp [apiFetchJsonDecode, hok, h204, hct, hallow]
  · intro hok h204 hct hbody
    simp [apiFetchJsonDecode, hok, h204, hct, hbody]
  · intro m hok hct hbody hm
    have hmsg : readErrorMessage res = .jstr m := by
      simp [readErrorMessage, hct, hbody, jGet, jFieldLookup, jsOr, jTruthy, hm]
    simp [apiFetchJsonDecode, hok, hmsg]
  · intro hok hct htext
    have htrim : jsTrim "" = "" := rfl
    have hmsg : readErrorMessage res = .jstr (requestFailedMsg res.status) := by
      simp [readErrorMessage, hct, readErrorText, htext, htrim]
    simp [apiFetchJsonDecode, hok, hmsg]

/-- C8 witness: a 400 with body `{"message":"bad request"}` raises a
status-carrying error whose message is exactly `bad request`; a 503
with an empty text body raises the fallback naming the status. -/
theorem decode_failure_taxonomy_witness :
    apiFetchJsonDecode
      ⟨400, some "application/json", some (.jobj [("message", .jstr "bad request")]), none⟩
      false = .errStatus 400 (.jstr "bad request") ∧
    apiFetchJsonDecode ⟨503, some "text/plain", none, some ""⟩ false =
      .errStatus 503 (.jstr (requestFailedMsg 503)) :=
  ⟨(decode_failure_taxonomy
      ⟨400, some "application/json", some (.jobj [("message", .jstr "bad request")]), none⟩
      false).2.2.2.2.1 "bad request" rfl rfl rfl (by decide),
   (decode_failure_taxonomy ⟨503, some "text/plain", none, some ""⟩ false).2.2.2.2.2
      rfl rfl rfl⟩

/-! ## C9 — decoder success path -/

/-- C9: a no-content (204) success decodes to the null-equivalent when
`allowNoJson` is set and fails with the content error when not; a
success with a non-JSON content type behaves the same way; any other
success has its JSON body returned as the value. -/
theorem decode_success_path (res : Response) (allow : Bool)
    (hok : Response.ok res = true) :
    (res.status = 204 →
      apiFetchJsonDecode res allow =
        (if allow then .ok .jnull else .errMsg "No content returned (204).")) ∧
    (res.status ≠ 204 →
      strIncludes (res.contentType.getD "") "application/json" = false →
      apiFetchJsonDecode res allow =
        (if allow then .ok .jnull
         else .errMsg "Expected JSON but got non-JSON. Check API URL/proxy.")) ∧
    (∀ v, res.status ≠ 204 →
      strIncludes (res.contentType.getD "") "application/json" = true →
      res.jsonBody = some v →
      apiFetchJsonDecode res allow = .ok v) := by
  refine ⟨?_, ?_, ?_⟩
  · intro h204
    cases allow <;> simp [apiFetchJsonDecode, hok, h204]
  · intro h204 hct
    cases allow <;> simp [apiFetchJsonDecode, hok, h204, hct]
  · intro v h204 hct hbody
    simp [apiFetchJsonDecode, hok, h204, hct, hbody]

/-- C9 witness: the three success-path behaviours at concrete
responses, including the round trip of the body `{"a": 1}`. -/
theorem decode_success_path_witness :
    apiFetchJsonDecode ⟨204, none, none, none⟩ true =
      (if true then .ok .jnull else .errMsg "No content returned (204).") ∧
    apiFetchJsonDecode ⟨204, none, none, none⟩ false =
      (if false then .ok .jnull else .errMsg "No content returned (204).") ∧
    apiFetchJsonDecode ⟨200, some "application/json", some (.jobj [("a", .jnum 1)]), none⟩
      false = .ok (.jobj [("a", .jnum 1)]) :=
  ⟨(decode_success_path ⟨204, none, none, none⟩ true rfl).1 rfl,
   (decode_success_path ⟨204, none, none, none⟩ false rfl).1 rfl,
   (decode_success_path ⟨200, some "application/json", some (.jobj [("a", .jnum 1)]), none⟩
      false rfl).2.2 (.jobj [("a", .jnum 1)]) (by decide) rfl rfl⟩

/-! ## C1 — single-flight refresh -/

/-- Helper: while a refresh promise is pending, any number of further
`refreshOnce` invocations leave the state unchanged and all receive the
pending handle. -/
theorem invokeRefreshers_pending (n : Nat) (s : FlightState) (h : Nat)
    (hs : s.inFlight = some h) :
    invokeRefreshers n s = (s, List.replicate n h) := by
  induction n with
  | zero => simp [invokeRefreshers]
  | succ k ih => simp [invokeRefreshers, refreshOnceStep, hs, ih, List.replicate_succ]

/-- C1: when `n ≥ 1` logical callers each invoke `refreshOnce` while no
refresh is in flight, exactly one refresh network call is issued, every
caller receives the same pending promise, and that promise is the one
left installed in the shared handle. -/
theorem refresh_single_flight (s0 : FlightState) (n : Nat)
    (h0 : s0.inFlight = none) (hn : 1 ≤ n) :
    (invokeRefreshers n s0).1.networkCalls = s0.networkCalls + 1 ∧
    (invokeRefreshers n s0).2 = List.replicate n s0.nextId ∧
    (invokeRefreshers n s0).1.inFlight = some s0.nextId := by
  obtain ⟨k, rfl⟩ : ∃ k, n = k + 1 := ⟨n - 1, by omega⟩
  have hstep : refreshOnceStep s0 =
      (⟨some s0.nextId, s0.nextId + 1, s0.networkCalls + 1⟩, s0.nextId) := by
    simp [refreshOnceStep, h0]
  have hrest := invokeRefreshers_pending k
      ⟨some s0.nextId, s0.nextId + 1, s0.networkCalls + 1⟩ s0.nextId rfl
  simp [invokeRefreshers, hstep, hrest, List.replicate_succ]

/-- C1 witness: three concurrent expired callers, one network call, all
sharing promise 5. -/
theorem refresh_single_flight_witness :
    (invokeRefreshers 3 ⟨none, 5, 7⟩).1.networkCalls = 7 + 1 ∧
    (invokeRefreshers 3 ⟨none, 5, 7⟩).2 = List.replicate 3 5 ∧
    (invokeRefreshers 3 ⟨none, 5, 7⟩).1.inFlight = some 5 :=
  refresh_single_flight ⟨none, 5, 7⟩ 3 rfl (by decide)

/-! ## C2 — retry bound of the executor -/

/-- Helper: the refresh operation performs at most one network call. -/
theorem refreshAccessToken_calls_le_one (net : NetResult) (store : Store) :
    (refreshAccessToken net store).networkCalls ≤ 1 := by
  by_cases hrt : strTruthy (getRefreshToken store) = false
  · simp [refreshAccessToken, hrt]
  · cases net with
    | netError => simp [refreshAccessToken, hrt]
    | resp res =>
        by_cases hok : Response.ok res
        · cases hbody : res.jsonBody with
          | none => simp [refreshAccessToken, hrt, hok, hbody]
          | some data =>
              by_cases hacc : jTruthy (jsNullish (jGet data "accessToken")
                  (jsNullish (jGet data "token") JVal.jnull)) = false
              · simp [refreshAccessToken, hrt, hok, hbody, hacc]
              · by_cases hrot : jTruthy (jGet data "refreshToken") = true <;>
                  simp [refreshAccessToken, hrt, hok, hbody, hacc, hrot]
        · by_cases h401 : res.status = 401 <;>
            simp [refreshAccessToken, hrt, hok, h401]

/-- Helper: `refreshOnce` reports the same number of network calls as
the underlying `refreshAccessToken`. -/
theorem refreshOnce_calls (net : NetResult) (store : Store) :
    (refreshOnce net store).networkCalls = (refreshAccessToken net store).networkCalls := by
  unfold refreshOnce
  split <;> simp_all

/-- C2: every `apiFetch` call makes at most 2 resource sends and at most
1 refresh network call; when the initial send is a 401, the refresh
yields a truthy credential, and the retry is again a 401, the retry's
response is returned, the session is cleared, and exactly 2 sends were
made. -/
theorem apiFetch_retry_bound (env : ApiEnv) (store : Store) (init : ReqInit) :
    (apiFetch env store init).sent.length ≤ 2 ∧
    (apiFetch env store init).refreshNetworkCalls ≤ 1 ∧
    (∀ res1 res2, env.net1 = .resp res1 → res1.status = 401 →
      jTruthy (refreshOnce env.refreshNet (withHeaders store init).1).token = true →
      env.net2 = .resp res2 → res2.status = 401 →
      (apiFetch env store init).outcome = .resp res2 ∧
      (apiFetch env store init).store = ⟨none, none, none⟩ ∧
      (apiFetch env store init).sent.length = 2) := by
  obtain ⟨n1, nr, n2⟩ := env
  have hcal : (refreshOnce nr (withHeaders store init).1).networkCalls ≤ 1 := by
    rw [refreshOnce_calls]
    exact refreshAccessToken_calls_le_one nr (withHeaders store init).1
  cases n1 with
  | netError => simp [apiFetch]
  | resp r1 =>
    by_cases h1 : r1.status = 401
    · by_cases ht : jTruthy (refreshOnce nr (withHeaders store init).1).token = true
      · cases n2 with
        | netError => simp [apiFetch, h1, ht, hcal]
        | resp r2 =>
          by_cases h2 : r2.status = 401
          · simp [apiFetch, h1, ht, h2, hcal, clearSession]
          · simp [apiFetch, h1, ht, h2, hcal]
      · simp [apiFetch, h1, ht, hcal]
    · refine ⟨?_, ?_, ?_⟩
      · simp [apiFetch, h1]
      · simp [apiFetch, h1]
      · intro res1 res2 he h401 ht h2 h2401
        injection he with hre
        subst hre
        exact absurd h401 h1

/-- C2 witness: a 401, a successful refresh, and a 401 retry at concrete
inputs. -/
theorem apiFetch_retry_bound_witness :
    (apiFetch
      ⟨.resp ⟨401, none, none, none⟩,
       .resp ⟨200, some "application/json", some (.jobj [("accessToken", .jstr "d.e.f")]), none⟩,
       .resp ⟨401, none, none, none⟩⟩
      ⟨some "a.b.c", some "r", some "u"⟩ ⟨⟨[]⟩, none⟩).outcome = .resp ⟨401, none, none, none⟩ ∧
    (apiFetch
      ⟨.resp ⟨401, none, none, none⟩,
       .resp ⟨200, some "application/json", some (.jobj [("accessToken", .jstr "d.e.f")]), none⟩,
       .resp ⟨401, none, none, none⟩⟩
      ⟨some "a.b.c", some "r", some "u"⟩ ⟨⟨[]⟩, none⟩).store = ⟨none, none, none⟩ ∧
    (apiFetch
      ⟨.resp ⟨401, none, none, none⟩,
       .resp ⟨200, some "application/json", some (.jobj [("accessToken", .jstr "d.e.f")]), none⟩,
       .resp ⟨401, none, none, none⟩⟩
      ⟨some "a.b.c", some "r", some "u"⟩ ⟨⟨[]⟩, none⟩).sent.length = 2 :=
  (apiFetch_retry_bound
      ⟨.resp ⟨401, none, none, none⟩,
       .resp ⟨200, some "application/json", some (.jobj [("accessToken", .jstr "d.e.f")]), none⟩,
       .resp ⟨401, none, none, none⟩⟩
      ⟨some "a.b.c", some "r", some "u"⟩ ⟨⟨[]⟩, none⟩).2.2
    ⟨401, none, none, none⟩ ⟨401, none, none, none⟩ rfl rfl rfl rfl rfl

/-! ## C7 — auth-expiry surfacing -/

/-- C7 counterexample: initial 401, successful refresh, retry again 401.
The executor returns the *retry's* response (line 176-180), not the
original one received before the refresh attempt; the two responses are
distinguishable by their bodies. -/
theorem apiFetch_retry_response_not_original :
    (apiFetch
      ⟨.resp ⟨401, none, none, some "first"⟩,
       .resp ⟨200, some "application/json", some (.jobj [("accessToken", .jstr "d.e.f")]), none⟩,
       .resp ⟨401, none, none, some "second"⟩⟩
      ⟨some "a.b.c", some "r", some "u"⟩ ⟨⟨[]⟩, none⟩).outcome =
      .resp ⟨401, none, none, some "second"⟩ ∧
    (⟨401, none, none, some "second"⟩ : Response) ≠ ⟨401, none, none, some "first"⟩ :=
  ⟨rfl, fun h => absurd (congrArg Response.textBody h) (by decide)⟩

/-- C7 (amended): a 401 on a resource call is recovered via
refresh-and-retry and surfaced only if the refresh or the retry also
fails; on refresh failure the session is cleared and the *original*
response is handed back; on a successful refresh the *retry's* response
is handed back, with the session cleared when it is again a 401. -/
theorem apiFetch_auth_expiry_surfacing (env : ApiEnv) (store : Store) (init : ReqInit)
    (res1 : Response) (h1 : env.net1 = .resp res1) (h401 : res1.status = 401) :
    (jTruthy (refreshOnce env.refreshNet (withHeaders store init).1).token = false →
      (apiFetch env store init).outcome = .resp res1 ∧
      (apiFetch env store init).store = ⟨none, none, none⟩) ∧
    (∀ res2, jTruthy (refreshOnce env.refreshNet (withHeaders store init).1).token = true →
      env.net2 = .resp res2 →
      (apiFetch env store init).outcome = .resp res2 ∧
      (res2.status = 401 → (apiFetch env store init).store = ⟨none, none, none⟩)) := by
  obtain ⟨n1, nr, n2⟩ := env
  subst h1
  constructor
  · intro ht
    simp [apiFetch, h401, ht, clearSession]
  · intro res2 ht h2
    subst h2
    by_cases h2st : res2.status = 401
    · simp [apiFetch, h401, ht, h2st, clearSession]
    · simp [apiFetch, h401, ht, h2st]

/-- C7 witness: refresh failure (no refresh credential stored) returns
the original 401 response and clears the session. -/
theorem apiFetch_auth_expiry_surfacing_witness :
    jTruthy (refreshOnce .netError
      (withHeaders ⟨some "a.b.c", none, none⟩ ⟨⟨[]⟩, none⟩).1).token = false ∧
    ((apiFetch ⟨.resp ⟨401, none, none, some "first"⟩, .netError, .netError⟩
        ⟨some "a.b.c", none, none⟩ ⟨⟨[]⟩, none⟩).outcome =
      .resp ⟨401, none, none, some "first"⟩ ∧
     (apiFetch ⟨.resp ⟨401, none, none, some "first"⟩, .netError, .netError⟩
        ⟨some "a.b.c", none, none⟩ ⟨⟨[]⟩, none⟩).store = ⟨none, none, none⟩) :=
  ⟨rfl,
   (apiFetch_auth_expiry_surfacing
      ⟨.resp ⟨401, none, none, some "first"⟩, .netError, .netError⟩
      ⟨some "a.b.c", none, none⟩ ⟨⟨[]⟩, none⟩
      ⟨401, none, none, some "first"⟩ rfl rfl).1 rfl⟩

/-! ## C10 — no structural check on the refreshed token -/

/-- C10: the refresh operation persists the access token from the
refresh response verbatim, with no three-segment structural check; the
purge rule only acts at attach time, so the retry after such a refresh
is sent with no `Authorization` entry and the invalid token is purged
from the store. -/
theorem refresh_persists_unvalidated_token (env : ApiEnv) (store : Store) (init : ReqInit)
    (res1 resR res2 : Response) (data : JVal) (s : String)
    (h1 : env.net1 = .resp res1) (h401 : res1.status = 401)
    (hrt : strTruthy store.refreshToken = true)
    (hr : env.refreshNet = .resp resR) (hok : Response.ok resR = true)
    (hbody : resR.jsonBody = some data)
    (hacc : jGet data "accessToken" = .jstr s) (hs : s ≠ "")
    (hinvalid : isProbablyJwt (some s) = false)
    (hnoauth : Headers.get init.headers "Authorization" = none)
    (h2 : env.net2 = .resp res2) (h2st : res2.status ≠ 401) :
    (refreshOnce env.refreshNet (withHeaders store init).1).store.accessToken = some s ∧
    (apiFetch env store init).sent =
      [(withHeaders store init).2,
       (withHeaders (refreshOnce env.refreshNet (withHeaders store init).1).store init).2] ∧
    Headers.get (withHeaders (refreshOnce env.refreshNet
      (withHeaders store init).1).store init).2.headers "Authorization" = none ∧
    (apiFetch env store init).store.accessToken = none := by
  obtain ⟨n1, nr, n2⟩ := env
  subst h1
  subst h2
  subst hr
  have hWrt : strTruthy (withHeaders store init).1.refreshToken = true := by
    rw [withHeaders_store_effect]
    split <;> simpa [removeAccessToken] using hrt
  have htrs : jTruthy (JVal.jstr s) = true := by simp [jTruthy, hs]
  have hRtok : (refreshOnce (.resp resR) (withHeaders store init).1).token = .jstr s := by
    by_cases hrot : jTruthy (jGet data "refreshToken") = true <;>
      simp [refreshOnce, refreshAccessToken, getRefreshToken, hWrt, hok, hbody, hacc,
        jsNullish, htrs, hrot]
  have hRacc : (refreshOnce (.resp resR) (withHeaders store init).1).store.accessToken = some s := by
    by_cases hrot : jTruthy (jGet data "refreshToken") = true <;>
      simp [refreshOnce, refreshAccessToken, getRefreshToken, hWrt, hok, hbody, hacc,
        jsNullish, htrs, hrot, setAccessToken, setRefreshToken, jToStoredString]
  have hRtruthy : jTruthy (refreshOnce (.resp resR) (withHeaders store init).1).token = true := by
    rw [hRtok]; exact htrs
  have hauth : Headers.get (withHeaders (refreshOnce (.resp resR)
      (withHeaders store init).1).store init).2.headers "Authorization" = none := by
    rw [withHeaders_auth_header]
    simp [getAccessToken, hRacc, hinvalid, hnoauth]
  have hpurge : (withHeaders (refreshOnce (.resp resR)
      (withHeaders store init).1).store init).1.accessToken = none := by
    rw [withHeaders_store_effect]
    simp [getAccessToken, hRacc, hinvalid, strTruthy, hs, removeAccessToken]
  refine ⟨hRacc, ?_, hauth, ?_⟩
  · simp [apiFetch, h401, hRtruthy, h2st]
  · simp [apiFetch, h401, hRtruthy, h2st, hpurge]

/-- C10 witness: the refresh endpoint hands back the one-segment token
`"abc"`; it is stored verbatim, then purged at the retry, which goes out
with no `Authorization` entry. -/
theorem refresh_persists_unvalidated_token_witness :
    (refreshOnce (.resp ⟨200, some "application/json",
        some (.jobj [("accessToken", .jstr "abc")]), none⟩)
      (withHeaders ⟨some "a.b.c", some "r", some "u"⟩ ⟨⟨[]⟩, none⟩).1).store.accessToken =
      some "abc" ∧
    (apiFetch
      ⟨.resp ⟨401, none, none, none⟩,
       .resp ⟨200, some "application/json", some (.jobj [("accessToken", .jstr "abc")]), none⟩,
       .resp ⟨200, some "application/json", some (.jobj []), none⟩⟩
      ⟨some "a.b.c", some "r", some "u"⟩ ⟨⟨[]⟩, none⟩).sent =
      [(withHeaders ⟨some "a.b.c", some "r", some "u"⟩ ⟨⟨[]⟩, none⟩).2,
       (withHeaders (refreshOnce (.resp ⟨200, some "application/json",
           some (.jobj [("accessToken", .jstr "abc")]), none⟩)
         (withHeaders ⟨some "a.b.c", some "r", some "u"⟩ ⟨⟨[]⟩, none⟩).1).store
         ⟨⟨[]⟩, none⟩).2] ∧
    Headers.get (withHeaders (refreshOnce (.resp ⟨200, some "application/json",
        some (.jobj [("accessToken", .jstr "abc")]), none⟩)
      (withHeaders ⟨some "a.b.c", some "r", some "u"⟩ ⟨⟨[]⟩, none⟩).1).store
      ⟨⟨[]⟩, none⟩).2.headers "Authorization" = none ∧
    (apiFetch
      ⟨.resp ⟨401, none, none, none⟩,
       .resp ⟨200, some "application/json", some (.jobj [("accessToken", .jstr "abc")]), none⟩,
       .resp ⟨200, some "application/json", some (.jobj []), none⟩⟩
      ⟨some "a.b.c", some "r", some "u"⟩ ⟨⟨[]⟩, none⟩).store.accessToken = none :=
  refresh_persists_unvalidated_token
    ⟨.resp ⟨401, none, none, none⟩,
     .resp ⟨200, some "application/json", some (.jobj [("accessToken", .jstr "abc")]), none⟩,
     .resp ⟨200, some "application/json", some (.jobj []), none⟩⟩
    ⟨some "a.b.c", some "r", some "u"⟩ ⟨⟨[]⟩, none⟩
    ⟨401, none, none, none⟩
    ⟨200, some "application/json", some (.jobj [("accessToken", .jstr "abc")]), none⟩
    ⟨200, some "application/json", some (.jobj []), none⟩
    (.jobj [("accessToken", .jstr "abc")]) "abc"
    rfl rfl rfl rfl rfl rfl rfl (by decide) rfl rfl rfl (by decide)
